import Mathlib

/-!
Verification of the SafeRoute NYC client-side orchestration layer.

The definitions below are shallow embeddings of the JavaScript source:
`PanicButton` (countdown confirm-then-fire panic alert), the dashboard
context (`triggerRouteRequest`, map selection coordination), the mapbox
service helpers (`ensureGeoJSONSource`, `ensureLineLayer`,
`forwardGeocode`), the geocoder hook, the mock API
(`mockFetchSafeRoute` / `fetchSafeRoute`), the `RouteComparisonPanel`
render logic and the `MapDashboard` initialization effect.
JavaScript numbers appearing only as opaque data are embedded as `Rat`;
asynchronous resolutions are explicit events delivered to a state.
-/

/-- `Coordinate`: `{ lat, lng }` as produced by geolocation, clicks and
geocoder results. -/
structure Coordinate where
  lat : Rat
  lng : Rat
deriving DecidableEq, Repr

/-- A coordinate is valid when it lies in the WGS84 ranges. -/
def validCoordinate (c : Coordinate) : Prop :=
  -90 ≤ c.lat ∧ c.lat ≤ 90 ∧ -180 ≤ c.lng ∧ c.lng ≤ 180

instance (c : Coordinate) : Decidable (validCoordinate c) := by
  unfold validCoordinate; infer_instance

/-- Route request params: `{ start, end }` (field `end` renamed `end_`
because `end` is a Lean keyword). -/
structure RouteRequestParams where
  start : Coordinate
  end_ : Coordinate
deriving DecidableEq, Repr

/-- The payload actually handed to `mockFetchSafeRoute`: in JavaScript the
fields may be missing (`payload.start || MOCK_ROUTE_RESPONSE.start`), so
they are embedded as `Option`. -/
structure RoutePayload where
  start : Option Coordinate
  end_ : Option Coordinate
deriving DecidableEq, Repr

/-- One route alternative of the `/safe-route` response
(`distance_m`, `duration_s`, optional `risk_areas_avoided`, LineString
geometry as a list of `[lng, lat]` pairs). -/
structure RouteAlternative where
  distance_m : Rat
  duration_s : Rat
  risk_areas_avoided : Option Nat
  geometry : List (Rat × Rat)
deriving DecidableEq, Repr

/-- `/safe-route` response shape (`MOCK_ROUTE_RESPONSE` and the backend
share it). -/
structure SafeRouteResponse where
  start : Coordinate
  end_ : Coordinate
  shortest : RouteAlternative
  safest : RouteAlternative
deriving DecidableEq, Repr

/-- `MOCK_ROUTE_RESPONSE` from the mock data module. -/
def MOCK_ROUTE_RESPONSE : SafeRouteResponse :=
  { start := { lat := 40.73061, lng := -74.0007 }
    end_ := { lat := 40.7152, lng := -73.983 }
    shortest :=
      { distance_m := 3200
        duration_s := 2400
        risk_areas_avoided := none
        geometry :=
          [(-74.0007, 40.7306), (-73.997, 40.724), (-73.989, 40.7187),
            (-73.983, 40.7152)] }
    safest :=
      { distance_m := 3600
        duration_s := 2600
        risk_areas_avoided := some 7
        geometry :=
          [(-74.0007, 40.7306), (-74.002, 40.725), (-73.996, 40.7195),
            (-73.989, 40.7172), (-73.983, 40.7152)] } }

/-- `mockFetchSafeRoute(payload)`: resolves with `MOCK_ROUTE_RESPONSE`
except that a provided (truthy) `payload.start` / `payload.end`
overrides the mock endpoints. -/
def mockFetchSafeRoute (payload : RoutePayload) : SafeRouteResponse :=
  { MOCK_ROUTE_RESPONSE with
    start := payload.start.getD MOCK_ROUTE_RESPONSE.start
    end_ := payload.end_.getD MOCK_ROUTE_RESPONSE.end_ }

/-- Outcome of `fetchSafeRoute`: in mock mode it resolves immediately with
the mock response; otherwise it issues a network POST whose response is
delivered later by the environment. -/
inductive RouteFetchOutcome where
  | resolved (response : SafeRouteResponse)
  | networkPost (payload : RoutePayload)
deriving DecidableEq, Repr

/-- `fetchSafeRoute(payload)` from `services/api.js`: dispatches on
`USE_MOCK_API`. -/
def fetchSafeRoute (useMockApi : Bool) (payload : RoutePayload) :
    RouteFetchOutcome :=
  if useMockApi then .resolved (mockFetchSafeRoute payload)
  else .networkPost payload

/-- Status values taken by the `PanicButton` component state. -/
inductive PanicStatus where
  | idle
  | confirming
  | sending
  | sent
  | error
deriving DecidableEq, Repr

/-- State of one mounted `PanicButton`: React state (`status`,
`countdown`, `lastTimestamp`, `toast`), the `timerRef` interval handle
(embedded as a Boolean: an interval is currently set), and an event
counter for calls made to `sendPanicAlert` (one per `sendAlert`
invocation). -/
structure PanicState where
  status : PanicStatus
  countdown : Nat
  timerActive : Bool
  dispatchCount : Nat
  lastTimestamp : Option Nat
  toastShown : Bool
deriving DecidableEq, Repr

/-- The state of a freshly mounted `PanicButton`. -/
def initPanicState : PanicState :=
  { status := .idle, countdown := 0, timerActive := false,
    dispatchCount := 0, lastTimestamp := none, toastShown := false }

/-- `sendAlert`: sets status to `sending` and issues the
`sendPanicAlert` POST (counted); the response is delivered later by
`dispatchSuccess` / `dispatchFailure`. It does not touch the timer. -/
def sendAlert (s : PanicState) : PanicState :=
  { s with status := .sending, dispatchCount := s.dispatchCount + 1 }

/-- `startCountdown`: sets status `confirming`, countdown 5, and installs
the 1-second interval. -/
def startCountdown (s : PanicState) : PanicState :=
  { s with status := .confirming, countdown := 5, timerActive := true }

/-- `cancelCountdown`: clears the interval (if set), zeroes the countdown
and returns to `idle`. -/
def cancelCountdown (s : PanicState) : PanicState :=
  { s with timerActive := false, countdown := 0, status := .idle }

/-- One firing of the interval installed by `startCountdown`: if the
previous countdown is at most 1, the interval clears itself and
`sendAlert()` runs; otherwise the countdown decrements. A cleared
interval never fires, so `tick` is the identity when no interval is
set. -/
def tick (s : PanicState) : PanicState :=
  if s.timerActive then
    if s.countdown ≤ 1 then sendAlert { s with timerActive := false, countdown := 0 }
    else { s with countdown := s.countdown - 1 }
  else s

/-- `n` seconds elapsing: `n` successive interval firings. -/
def tickN : Nat → PanicState → PanicState
  | 0, s => s
  | n + 1, s => tickN n (tick s)

/-- `handleClick` on the main panic button: ignored while disabled,
while `sending`, and while `confirming`; otherwise starts the
countdown. -/
def handleClick (disabled : Bool) (s : PanicState) : PanicState :=
  if disabled || s.status = .sending then s
  else if s.status = .confirming then s
  else startCountdown s

/-- The `Send now` button inside the confirmation panel: its `onClick`
is `sendAlert` directly (note: it does not clear the interval). -/
def sendNowClick (s : PanicState) : PanicState :=
  sendAlert s

/-- Resolution of one `sendPanicAlert` call with a success response:
records the timestamp, moves to `sent` and shows the toast. -/
def dispatchSuccess (timestamp : Nat) (s : PanicState) : PanicState :=
  { s with lastTimestamp := some timestamp, status := .sent, toastShown := true }

/-- Resolution of one `sendPanicAlert` call with an error: moves to
`error` (after logging). -/
def dispatchFailure (s : PanicState) : PanicState :=
  { s with status := .error }

/-- The unmount cleanup effect: clears the interval if one is set. -/
def unmountCleanup (s : PanicState) : PanicState :=
  { s with timerActive := false }

theorem tick_of_inactive {s : PanicState} (h : s.timerActive = false) :
    tick s = s := by
  simp [tick, h]

theorem tickN_of_inactive {s : PanicState} (h : s.timerActive = false) :
    ∀ n, tickN n s = s := by
  intro n
  induction n with
  | zero => rfl
  | succ n ih =>
    show tickN n (tick s) = s
    rw [tick_of_inactive h, ih]

/-- Status of the mutation currently watched by a `useMutation`
observer. -/
inductive MutationStatus where
  | idle
  | pending
  | success
  | error
deriving DecidableEq, Repr

/-- Modelled from the spec: `useSafeRoute` delegates all request state to
`useMutation` of `@tanstack/react-query`, a dependency whose code is not
in the repository. Per the spec (§4.4, ordering by submission time) and
the library's documented behaviour, the hook reflects only the most
recently submitted mutation: each `mutateAsync` call detaches the
observer from the previous mutation and starts a fresh one (status
`pending`, `data` and `error` reset), and a resolution updates the hook
state only if its mutation is still the current one. Submissions are
numbered by `nextSeq`; `currentSeq` identifies the mutation the
observer watches; `submittedParams` embeds the library state field `variables`. -/
structure MutationObs (P R E : Type) where
  nextSeq : Nat
  currentSeq : Option Nat
  status : MutationStatus
  submittedParams : Option P
  data : Option R
  error : Option E

/-- Observer state before any mutation has been submitted. -/
def MutationObs.initial (P R E : Type) : MutationObs P R E :=
  { nextSeq := 0, currentSeq := none, status := .idle,
    submittedParams := none, data := none, error := none }

/-- Modelled from the spec: submitting a mutation (`mutateAsync(p)`).
The new mutation gets sequence number `s.nextSeq`, becomes the watched
one, and the hook state resets to a fresh pending mutation. -/
def submitMutation {P R E : Type} (p : P) (s : MutationObs P R E) :
    MutationObs P R E :=
  { nextSeq := s.nextSeq + 1, currentSeq := some s.nextSeq,
    status := .pending, submittedParams := some p, data := none, error := none }

/-- Modelled from the spec: successful resolution of the mutation with
sequence number `seq`. It updates the hook state only if that mutation
is still the watched one; a detached (superseded) mutation's resolution
changes nothing. -/
def resolveMutationSuccess {P R E : Type} (seq : Nat) (r : R)
    (s : MutationObs P R E) : MutationObs P R E :=
  if s.currentSeq = some seq then
    { s with status := .success, data := some r, error := none }
  else s

/-- Modelled from the spec: failed resolution of the mutation with
sequence number `seq`; applies only while that mutation is still
watched. The mutation's `data` was never set, so `data` is left as
is. -/
def resolveMutationFailure {P R E : Type} (seq : Nat) (e : E)
    (s : MutationObs P R E) : MutationObs P R E :=
  if s.currentSeq = some seq then
    { s with status := .error, error := some e }
  else s

/-- `DEFAULT_COORDS` of the dashboard context. -/
def DEFAULT_COORDS : RouteRequestParams :=
  { start := { lat := 40.73061, lng := -74.0007 }
    end_ := { lat := 40.7152, lng := -73.983 } }

/-- Route-request state owned by `DashboardProvider`: the `useSafeRoute`
observer plus `lastRouteParams` (initialised to `DEFAULT_COORDS`). -/
structure RouteOrchestrator where
  obs : MutationObs RouteRequestParams SafeRouteResponse String
  lastRouteParams : RouteRequestParams

/-- Orchestrator state on mount, before the automatic initial request. -/
def initRouteOrchestrator : RouteOrchestrator :=
  { obs := MutationObs.initial _ _ _, lastRouteParams := DEFAULT_COORDS }

/-- `triggerRouteRequest(payload)` from the dashboard context: choose
`payload || lastRouteParams || DEFAULT_COORDS` (with `lastRouteParams`
always set, the final fallback is unreachable), record it as
`lastRouteParams`, and submit the mutation. -/
def triggerRouteRequest (payload : Option RouteRequestParams)
    (s : RouteOrchestrator) : RouteOrchestrator :=
  let params := payload.getD s.lastRouteParams
  { obs := submitMutation params s.obs, lastRouteParams := params }

/-- Delivery of a successful `/safe-route` response for the request
submitted with sequence number `seq`. -/
def routeResolveSuccess (seq : Nat) (r : SafeRouteResponse)
    (s : RouteOrchestrator) : RouteOrchestrator :=
  { s with obs := resolveMutationSuccess seq r s.obs }

/-- Delivery of a failed `/safe-route` response for the request
submitted with sequence number `seq`. -/
def routeResolveFailure (seq : Nat) (e : String)
    (s : RouteOrchestrator) : RouteOrchestrator :=
  { s with obs := resolveMutationFailure seq e s.obs }

/-- The `Retry` button of `RouteComparisonPanel`:
`requestRoute(lastRouteParams)`. -/
def retryFromPanel (s : RouteOrchestrator) : RouteOrchestrator :=
  triggerRouteRequest (some s.lastRouteParams) s

/-- What `RouteComparisonPanel` renders. -/
inductive RoutePanelView where
  | loadingSpinner
  | errorWithRetry (retryParams : RouteRequestParams)
  | emptyPrompt
  | comparison (shortest safest : RouteAlternative) (activeKey : String)
deriving DecidableEq, Repr

/-- `RouteComparisonPanel` render logic: spinner while loading, error
text plus a retry bound to `lastRouteParams` on error, a prompt when no
route data is present, otherwise the two route cards. -/
def renderRouteComparisonPanel (activeKey : String)
    (s : RouteOrchestrator) : RoutePanelView :=
  if s.obs.status = .pending then .loadingSpinner
  else if s.obs.error.isSome then .errorWithRetry s.lastRouteParams
  else
    match s.obs.data with
    | none => .emptyPrompt
    | some r => .comparison r.shortest r.safest activeKey

/-- Map-selection state owned by `DashboardProvider`: the active target
(`mapSelectionTarget`, a field name string or `null`), the
`mapSelectionCallbacks` ref (field name to registered handler, handlers
named by opaque identifiers), and the stored selection-marker
coordinates. -/
structure SelectionState where
  target : Option String
  handlers : String → Option Nat
  selectedStartCoords : Option Coordinate
  selectedEndCoords : Option Coordinate

/-- Selection state on mount: no target, no handlers, no stored
coordinates. -/
def initSelectionState : SelectionState :=
  { target := none, handlers := fun _ => none,
    selectedStartCoords := none, selectedEndCoords := none }

/-- `registerMapSelectionHandler(field, handler)`: stores the handler in
the callbacks ref under the field name. -/
def registerMapSelectionHandler (field : String) (handler : Nat)
    (s : SelectionState) : SelectionState :=
  { s with handlers := fun g => if g = field then some handler else s.handlers g }

/-- The deregistration closure returned by
`registerMapSelectionHandler`: deletes the field's entry. -/
def deregisterMapSelectionHandler (field : String)
    (s : SelectionState) : SelectionState :=
  { s with handlers := fun g => if g = field then none else s.handlers g }

/-- `beginMapSelection(field)`: makes `field` the active target,
overwriting any prior one. -/
def beginMapSelection (field : String) (s : SelectionState) :
    SelectionState :=
  { s with target := some field }

/-- Result of `completeMapSelection`: the new state plus the handler
invocation it performed (handler identifier and the coordinate passed),
if any. -/
structure SelectionResult where
  state : SelectionState
  invoked : Option (Nat × Coordinate)

/-- `completeMapSelection(coords)`: when a target is active and a handler
is registered for it, invoke that handler with the coordinate and store
the coordinate for the matching selection marker; in every case reset
the target to `null`. -/
def completeMapSelection (coords : Coordinate) (s : SelectionState) :
    SelectionResult :=
  match s.target with
  | some field =>
    match s.handlers field with
    | some handler =>
      { state :=
          { s with
            selectedStartCoords :=
              if field = "start" then some coords else s.selectedStartCoords
            selectedEndCoords :=
              if field = "end" then some coords else s.selectedEndCoords
            target := none }
        invoked := some (handler, coords) }
    | none => { state := { s with target := none }, invoked := none }
  | none => { state := { s with target := none }, invoked := none }

/-- Paint and source properties of a mapbox line layer as touched by
`ensureLineLayer`. -/
structure LineLayer where
  source : String
  color : String
  width : Rat
  dasharray : Option (List Rat)
  opacity : Rat
  blur : Rat
deriving DecidableEq, Repr

/-- The options object accepted by `ensureLineLayer`, with its default
values (`width = 4`, `opacity = 0.85`, `blur = 0.15`). -/
structure LineLayerOptions where
  id : String
  sourceId : String
  color : String
  width : Rat := 4
  dasharray : Option (List Rat) := none
  opacity : Rat := 0.85
  blur : Rat := 0.15
deriving DecidableEq, Repr

/-- The slice of a mapbox map instance the layer helpers touch: its
ordered collections of GeoJSON sources and line layers, keyed by id.
The source data type is a parameter. -/
structure MapboxMap (α : Type) where
  sources : List (String × α)
  layers : List (String × LineLayer)

/-- A map with no sources and no layers. -/
def emptyMapboxMap (α : Type) : MapboxMap α :=
  { sources := [], layers := [] }

/-- `map.getSource(id)`. -/
def getSource {α : Type} (m : MapboxMap α) (id : String) : Option α :=
  (m.sources.find? (fun p => p.1 = id)).map (fun p => p.2)

/-- `map.getSource(id).setData(data)`: replaces the data of the existing
source in place. -/
def setSourceData {α : Type} (m : MapboxMap α) (id : String) (d : α) :
    MapboxMap α :=
  { m with sources := m.sources.map (fun p => if p.1 = id then (p.1, d) else p) }

/-- `map.addSource(id, { type: "geojson", data })`: appends a new
source. -/
def addSource {α : Type} (m : MapboxMap α) (id : String) (d : α) :
    MapboxMap α :=
  { m with sources := m.sources ++ [(id, d)] }

/-- `map.getLayer(id)`. -/
def getLayer {α : Type} (m : MapboxMap α) (id : String) : Option LineLayer :=
  (m.layers.find? (fun p => p.1 = id)).map (fun p => p.2)

/-- `ensureGeoJSONSource(map, id, data)`: update the data in place when
the source exists, otherwise create it. -/
def ensureGeoJSONSource {α : Type} (m : MapboxMap α) (id : String) (d : α) :
    MapboxMap α :=
  if (getSource m id).isSome then setSourceData m id d
  else addSource m id d

/-- `ensureLineLayer(map, options)`: when the layer exists, set its paint
properties from the options (`line-dasharray` only when a dasharray is
provided); otherwise add a new line layer built from the options. -/
def ensureLineLayer {α : Type} (m : MapboxMap α) (o : LineLayerOptions) :
    MapboxMap α :=
  if (getLayer m o.id).isSome then
    { m with layers := m.layers.map (fun p =>
        if p.1 = o.id then
          (p.1,
            { p.2 with
              color := o.color
              width := o.width
              dasharray :=
                if o.dasharray.isSome then o.dasharray else p.2.dasharray
              opacity := o.opacity
              blur := o.blur })
        else p) }
  else
    { m with layers := m.layers ++
        [(o.id,
          { source := o.sourceId, color := o.color, width := o.width,
            dasharray := o.dasharray, opacity := o.opacity, blur := o.blur })] }

/-- Number of sources carrying a given id. -/
def sourceCount {α : Type} (m : MapboxMap α) (id : String) : Nat :=
  (m.sources.filter (fun p => p.1 = id)).length

/-- Number of layers carrying a given id. -/
def layerCount {α : Type} (m : MapboxMap α) (id : String) : Nat :=
  (m.layers.filter (fun p => p.1 = id)).length

/-- The ids of the map's sources, in creation order. -/
def sourceIds {α : Type} (m : MapboxMap α) : List String :=
  m.sources.map (fun p => p.1)

/-- JavaScript `String.prototype.trim()`: strips leading and trailing
whitespace. -/
def jsTrim (s : String) : String :=
  ⟨((s.data.dropWhile Char.isWhitespace).reverse.dropWhile
      Char.isWhitespace).reverse⟩

/-- What the `useGeocoder` effect does for a given query value. -/
inductive GeocoderEffectAction where
  | clearSuggestions
  | scheduleLookup (trimmedQuery : String) (delayMs : Nat)
deriving DecidableEq, Repr

/-- The `useGeocoder` hook's effect body: when the hook is disabled, the
query is empty, or the trimmed query is shorter than 3 characters, the
suggestion list is cleared and nothing is scheduled; otherwise a lookup
for the trimmed query is scheduled behind the 250 ms debounce timer. -/
def useGeocoderEffect (enabled : Bool) (query : String) :
    GeocoderEffectAction :=
  if !enabled || query.isEmpty || (jsTrim query).length < 3 then
    .clearSuggestions
  else .scheduleLookup (jsTrim query) 250

/-- What `forwardGeocode` does for a given query: resolve immediately
with an empty feature list, or issue the geocoding request. -/
inductive ForwardGeocodeOutcome where
  | immediateEmpty
  | issuesRequest (query : String)
deriving DecidableEq, Repr

/-- `forwardGeocode(query)` from `services/mapbox.js`: a falsy or
shorter-than-3-characters query resolves to `[]` without any request;
otherwise the geocoding endpoint is queried. -/
def forwardGeocode (query : String) : ForwardGeocodeOutcome :=
  if query.isEmpty || query.length < 3 then .immediateEmpty
  else .issuesRequest query

/-- A base map configuration as constructed by `createBaseMap`
(dark style, `DEFAULT_CENTER`, zoom 12.5). -/
structure BaseMapConfig where
  center : Rat × Rat
  zoom : Rat
deriving DecidableEq, Repr

/-- `DEFAULT_CENTER` from `services/mapbox.js` (`[lng, lat]`). -/
def DEFAULT_CENTER : Rat × Rat := (-73.995, 40.72)

/-- `createBaseMap(container)`: throws when no access token is
configured, otherwise constructs the map instance. -/
def createBaseMap (hasToken : Bool) : Except String BaseMapConfig :=
  if hasToken then .ok { center := DEFAULT_CENTER, zoom := 12.5 }
  else .error "Mapbox access token is required"

/-- The slice of `MapDashboard` state its initialization effect reads
and writes: the `mapRef` instance slot and whether the container node
is available. -/
structure MapDashboardState where
  mapInstance : Option BaseMapConfig
  containerReady : Bool
deriving DecidableEq, Repr

/-- What one run of the initialization effect did (each non-creating
outcome is a logged no-op, never a throw). -/
inductive MapInitOutcome where
  | skippedExisting
  | warnedNoContainer
  | loggedMissingToken
  | initialized
  | loggedInitFailure
deriving DecidableEq, Repr

/-- The `MapDashboard` initialization effect: bail out silently when an
instance already exists, warn when the container is missing, log an
error when the token is missing, otherwise create the map — any throw
from creation is caught and logged. -/
def mapInitEffect (hasToken : Bool) (s : MapDashboardState) :
    MapDashboardState × MapInitOutcome :=
  if s.mapInstance.isSome then (s, .skippedExisting)
  else if !s.containerReady then (s, .warnedNoContainer)
  else if !hasToken then (s, .loggedMissingToken)
  else
    match createBaseMap hasToken with
    | .ok map => ({ s with mapInstance := some map }, .initialized)
    | .error _ => (s, .loggedInitFailure)

/-- What the `MapDashboard` component renders. -/
inductive MapDashboardView where
  | tokenMissingEmptyState
  | mapContainer
deriving DecidableEq, Repr

/-- The `MapDashboard` render: without an access token it returns the
labeled "Mapbox Token Missing" empty state instead of the map
container. -/
def renderMapDashboard (hasToken : Bool) : MapDashboardView :=
  if !hasToken then .tokenMissingEmptyState else .mapContainer

/-- C3: the claim that every transition away from `confirming` clears the
countdown timer and that one confirmation flow dispatches exactly once is
violated by the code: the `Send now` button's handler is `sendAlert`
itself, which does not clear the interval, so after pressing `Send now`
the timer is still active, and when the abandoned countdown reaches zero
it invokes `sendAlert` a second time — two dispatch calls for one
confirmation flow. -/
theorem sendNow_leaves_dangling_timer_and_double_dispatches :
    (handleClick false initPanicState).status = .confirming ∧
    (handleClick false initPanicState).timerActive = true ∧
    (sendNowClick (handleClick false initPanicState)).status = .sending ∧
    (sendNowClick (handleClick false initPanicState)).timerActive = true ∧
    (sendNowClick (handleClick false initPanicState)).dispatchCount = 1 ∧
    (tickN 5 (sendNowClick (handleClick false initPanicState))).dispatchCount
      = 2 := by
  decide

/-- C4: from `idle`, a click moves to `confirming` with countdown 5; the
countdown decrements once per interval tick; after 5 ticks the machine
auto-transitions to `sending` with exactly one dispatch and the interval
cleared; a successful dispatch moves to `sent`; and `cancel` from
`confirming` returns to `idle` with the countdown stopped — after cancel
no number of further seconds changes the state, and nothing is ever
dispatched. -/
theorem panic_countdown_flow_and_cancel :
    ((handleClick false initPanicState).status = .confirming ∧
    (handleClick false initPanicState).countdown = 5 ∧
    (tickN 1 (handleClick false initPanicState)).status = .confirming ∧
    (tickN 1 (handleClick false initPanicState)).countdown = 4 ∧
    (tickN 2 (handleClick false initPanicState)).status = .confirming ∧
    (tickN 2 (handleClick false initPanicState)).countdown = 3 ∧
    (tickN 3 (handleClick false initPanicState)).status = .confirming ∧
    (tickN 3 (handleClick false initPanicState)).countdown = 2 ∧
    (tickN 4 (handleClick false initPanicState)).status = .confirming ∧
    (tickN 4 (handleClick false initPanicState)).countdown = 1 ∧
    (tickN 5 (handleClick false initPanicState)).status = .sending ∧
    (tickN 5 (handleClick false initPanicState)).dispatchCount = 1 ∧
    (tickN 5 (handleClick false initPanicState)).timerActive = false ∧
    (dispatchSuccess 42 (tickN 5 (handleClick false initPanicState))).status
      = .sent ∧
    (cancelCountdown (handleClick false initPanicState)).status = .idle ∧
    (cancelCountdown (handleClick false initPanicState)).countdown = 0 ∧
    (cancelCountdown (handleClick false initPanicState)).timerActive = false ∧
    (cancelCountdown (handleClick false initPanicState)).dispatchCount = 0) ∧
    ∀ n, tickN n (cancelCountdown (handleClick false initPanicState)) =
      cancelCountdown (handleClick false initPanicState) := by
  refine ⟨by decide, fun n => tickN_of_inactive (by decide) n⟩

/-- C10: clicking the main panic button while the machine is
`confirming` or `sending`, or while the button is disabled, leaves the
whole state unchanged: no countdown restart, no reset of the remaining
time, no dispatch. -/
theorem click_ignored_while_confirming_sending_or_disabled
    (disabled : Bool) (s : PanicState)
    (h : disabled = true ∨ s.status = .confirming ∨ s.status = .sending) :
    handleClick disabled s = s := by
  rcases h with h | h | h
  · simp [handleClick, h]
  · cases disabled <;> simp [handleClick, h]
  · simp [handleClick, h]

theorem click_ignored_witness :
    handleClick false (startCountdown initPanicState) =
      startCountdown initPanicState :=
  click_ignored_while_confirming_sending_or_disabled false
    (startCountdown initPanicState) (Or.inr (Or.inl (by decide)))

/-- C1: if request A is submitted before request B and B's response
resolves first, the hook state and the rendered panel reflect B, and A's
late resolution changes nothing at all — route results are ordered by
submission time, not completion time. -/
theorem route_results_ordered_by_submission (s : RouteOrchestrator)
    (pA pB : RouteRequestParams) (rA rB : SafeRouteResponse)
    (activeKey : String) :
    let a := s.obs.nextSeq
    let s1 := triggerRouteRequest (some pA) s
    let b := s1.obs.nextSeq
    let s2 := triggerRouteRequest (some pB) s1
    let s3 := routeResolveSuccess b rB s2
    s3.obs.data = some rB ∧
    routeResolveSuccess a rA s3 = s3 ∧
    renderRouteComparisonPanel activeKey s3 =
      .comparison rB.shortest rB.safest activeKey ∧
    renderRouteComparisonPanel activeKey (routeResolveSuccess a rA s3) =
      .comparison rB.shortest rB.safest activeKey := by
  intro a s1 b s2 s3
  have hne : s.obs.nextSeq + 1 ≠ s.obs.nextSeq := Nat.succ_ne_self _
  refine ⟨?_, ?_, ?_, ?_⟩ <;>
    simp [s3, s2, s1, a, b, triggerRouteRequest, routeResolveSuccess,
      resolveMutationSuccess, submitMutation, renderRouteComparisonPanel,
      hne]

/-- C2 counterexample: a successful request displays
`MOCK_ROUTE_RESPONSE`; a second request is then submitted and fails.
Contrary to the claim, the previously displayed result is not preserved:
the hook's route data is `none` after the failure (it was reset when the
second request was submitted) and the panel renders the error view, not
the prior result. -/
theorem route_failure_does_not_preserve_prior_result :
    (routeResolveSuccess 0 MOCK_ROUTE_RESPONSE
        (triggerRouteRequest (some DEFAULT_COORDS)
          initRouteOrchestrator)).obs.data = some MOCK_ROUTE_RESPONSE ∧
    (routeResolveFailure 1 "Network Error"
        (triggerRouteRequest
          (some { start := { lat := 40.8, lng := -73.95 },
                  end_ := { lat := 40.7, lng := -74.0 } })
          (routeResolveSuccess 0 MOCK_ROUTE_RESPONSE
            (triggerRouteRequest (some DEFAULT_COORDS)
              initRouteOrchestrator)))).obs.data = none ∧
    (routeResolveFailure 1 "Network Error"
        (triggerRouteRequest
          (some { start := { lat := 40.8, lng := -73.95 },
                  end_ := { lat := 40.7, lng := -74.0 } })
          (routeResolveSuccess 0 MOCK_ROUTE_RESPONSE
            (triggerRouteRequest (some DEFAULT_COORDS)
              initRouteOrchestrator)))).obs.data ≠
      some MOCK_ROUTE_RESPONSE ∧
    renderRouteComparisonPanel "safest"
        (routeResolveFailure 1 "Network Error"
          (triggerRouteRequest
            (some { start := { lat := 40.8, lng := -73.95 },
                    end_ := { lat := 40.7, lng := -74.0 } })
            (routeResolveSuccess 0 MOCK_ROUTE_RESPONSE
              (triggerRouteRequest (some DEFAULT_COORDS)
                initRouteOrchestrator)))) =
      .errorWithRetry { start := { lat := 40.8, lng := -73.95 },
                        end_ := { lat := 40.7, lng := -74.0 } } := by
  refine ⟨rfl, rfl, ?_, rfl⟩
  decide

/-- C2 amended: when a route request fails, the error state is set and
the failed parameters remain exposed as `lastRouteParams`, so the retry
action resubmits exactly the same parameters; the failure event itself
never changes route data — but the previously displayed result is not
preserved, because submitting the new request already reset the route
data to `none`. -/
theorem route_failure_sets_error_and_retry_resubmits
    (s : RouteOrchestrator) (p : RouteRequestParams) (e : String) :
    let s1 := triggerRouteRequest (some p) s
    let s2 := routeResolveFailure s.obs.nextSeq e s1
    s1.obs.data = none ∧
    s2.obs.data = none ∧
    s2.obs.status = .error ∧
    s2.obs.error = some e ∧
    s2.lastRouteParams = p ∧
    (retryFromPanel s2).obs.submittedParams = some p ∧
    (∀ (seq : Nat) (e2 : String) (t : RouteOrchestrator),
      (routeResolveFailure seq e2 t).obs.data = t.obs.data) := by
  intro s1 s2
  refine ⟨rfl, ?_, ?_, ?_, rfl, rfl, ?_⟩
  · simp [s2, s1, routeResolveFailure, resolveMutationFailure,
      triggerRouteRequest, submitMutation]
  · simp [s2, s1, routeResolveFailure, resolveMutationFailure,
      triggerRouteRequest, submitMutation]
  · simp [s2, s1, routeResolveFailure, resolveMutationFailure,
      triggerRouteRequest, submitMutation]
  · intro seq e2 t
    unfold routeResolveFailure resolveMutationFailure
    split <;> rfl

/-- C5: for every coordinate and selection state, completing a map
selection resets the target to `none`; when a target was active with a
registered handler, exactly that handler is invoked with exactly that
coordinate, and otherwise (no target, or no handler for the target) the
coordinate is silently dropped — no handler runs, and the target is
still reset. -/
theorem completeMapSelection_invokes_handler_and_resets
    (s : SelectionState) (coords : Coordinate) :
    (completeMapSelection coords s).state.target = none ∧
    (completeMapSelection coords s).invoked =
      (match s.target with
       | none => none
       | some field => (s.handlers field).map (fun h => (h, coords))) := by
  rcases hT : s.target with _ | field
  · simp [completeMapSelection, hT]
  · rcases hH : s.handlers field with _ | handler
    · simp [completeMapSelection, hT, hH]
    · simp [completeMapSelection, hT, hH]

theorem find?_append_of_none {β : Type} (p : β → Bool) (l₁ l₂ : List β)
    (h : l₁.find? p = none) : (l₁ ++ l₂).find? p = l₂.find? p := by
  induction l₁ with
  | nil => rfl
  | cons x xs ih =>
    rcases hx : p x with _ | _
    · rw [List.cons_append]
      simp only [List.find?, hx] at h ⊢
      exact ih h
    · simp [List.find?, hx] at h

theorem map_upd_of_absent {β : Type} (f : β → β) (l : List β)
    (p : β → Bool) (hf : ∀ a, p a = false → f a = a)
    (h : l.find? p = none) : l.map f = l := by
  have hall := List.find?_eq_none.mp h
  have : ∀ a ∈ l, f a = a := fun a ha => hf a (by
    have := hall a ha
    revert this
    rcases p a with _ | _ <;> simp)
  rw [List.map_congr_left this]
  simp

theorem filter_of_find?_none {β : Type} (p : β → Bool) (l : List β)
    (h : l.find? p = none) : l.filter p = [] := by
  refine List.filter_eq_nil_iff.mpr ?_
  have hall := List.find?_eq_none.mp h
  intro a ha
  have := hall a ha
  revert this
  rcases p a with _ | _ <;> simp

theorem ensureLineLayer_sources {α : Type} (m : MapboxMap α)
    (o : LineLayerOptions) : (ensureLineLayer m o).sources = m.sources := by
  unfold ensureLineLayer
  split <;> rfl

theorem ensureGeoJSONSource_layers {α : Type} (m : MapboxMap α)
    (id : String) (d : α) :
    (ensureGeoJSONSource m id d).layers = m.layers := by
  unfold ensureGeoJSONSource
  split <;> rfl

theorem getSource_eq_find? {α : Type} (m : MapboxMap α) (id : String) :
    getSource m id =
      (m.sources.find? (fun p => decide (p.1 = id))).map (fun p => p.2) :=
  rfl

theorem ensureGeoJSONSource_sources_of_absent {α : Type} (m : MapboxMap α)
    (id : String) (d : α) (hs : getSource m id = none) :
    (ensureGeoJSONSource m id d).sources = m.sources ++ [(id, d)] := by
  unfold ensureGeoJSONSource
  rw [hs]
  rfl

theorem getLayer_eq_find? {α : Type} (m : MapboxMap α) (id : String) :
    getLayer m id =
      (m.layers.find? (fun p => decide (p.1 = id))).map (fun p => p.2) :=
  rfl

/-- C6: starting from a map that does not yet carry the id, two
successive source-and-line-layer upserts with the same ids leave exactly
one source and one layer with those ids; the source holds the second
call's data, the layer shows the second call's paint properties (the
dasharray from the first call survives only when the second call
provides none), the layer keeps the source binding it was created with,
and the second round recreates nothing: the set of source ids is
unchanged by it. -/
theorem upsert_twice_yields_single_source_and_layer {α : Type}
    (m : MapboxMap α) (id : String) (d1 d2 : α) (o1 o2 : LineLayerOptions)
    (hs : getSource m id = none) (hl : getLayer m o1.id = none)
    (hid : o2.id = o1.id) :
    let m1 := ensureLineLayer (ensureGeoJSONSource m id d1) o1
    let m2 := ensureLineLayer (ensureGeoJSONSource m1 id d2) o2
    sourceCount m2 id = 1 ∧
    getSource m2 id = some d2 ∧
    layerCount m2 o1.id = 1 ∧
    getLayer m2 o1.id = some
      { source := o1.sourceId, color := o2.color, width := o2.width,
        dasharray :=
          if o2.dasharray.isSome then o2.dasharray else o1.dasharray,
        opacity := o2.opacity, blur := o2.blur } ∧
    sourceIds m2 = sourceIds m1 := by
  intro m1 m2
  have hfindS : m.sources.find? (fun p => decide (p.1 = id)) = none := by
    rw [getSource_eq_find?] at hs
    exact Option.map_eq_none'.mp hs
  have hfindL : m.layers.find? (fun p => decide (p.1 = o1.id)) = none := by
    rw [getLayer_eq_find?] at hl
    exact Option.map_eq_none'.mp hl
  have hfindL2 : m.layers.find? (fun p => decide (p.1 = o2.id)) = none := by
    rw [hid]
    exact hfindL
  have hm1s : m1.sources = m.sources ++ [(id, d1)] := by
    show (ensureLineLayer (ensureGeoJSONSource m id d1) o1).sources = _
    rw [ensureLineLayer_sources, ensureGeoJSONSource_sources_of_absent m id d1 hs]
  have hg1 : getSource m1 id = some d1 := by
    rw [getSource_eq_find?, hm1s, find?_append_of_none _ _ _ hfindS]
    simp [List.find?]
  have hm2s : m2.sources = m.sources ++ [(id, d2)] := by
    show (ensureLineLayer (ensureGeoJSONSource m1 id d2) o2).sources = _
    rw [ensureLineLayer_sources]
    unfold ensureGeoJSONSource setSourceData
    simp only [hg1, Option.isSome_some, if_true]
    rw [hm1s, List.map_append,
      map_upd_of_absent _ m.sources (fun p => decide (p.1 = id)) ?_ hfindS]
    · simp
    · intro a ha
      have hne : ¬ (a.1 = id) := by simpa using ha
      simp [hne]
  have hm1L : m1.layers = m.layers ++
      [(o1.id,
        { source := o1.sourceId, color := o1.color, width := o1.width,
          dasharray := o1.dasharray, opacity := o1.opacity,
          blur := o1.blur })] := by
    show (ensureLineLayer (ensureGeoJSONSource m id d1) o1).layers = _
    have hgl0 : getLayer (ensureGeoJSONSource m id d1) o1.id = none := by
      rw [getLayer_eq_find?, ensureGeoJSONSource_layers, ← getLayer_eq_find?]
      exact hl
    unfold ensureLineLayer
    simp only [hgl0, Option.isSome_none, Bool.false_eq_true, if_false]
    rw [ensureGeoJSONSource_layers]
  have hgL1 : getLayer m1 o1.id = some
      { source := o1.sourceId, color := o1.color, width := o1.width,
        dasharray := o1.dasharray, opacity := o1.opacity,
        blur := o1.blur } := by
    rw [getLayer_eq_find?, hm1L, find?_append_of_none _ _ _ hfindL]
    simp [List.find?]
  have hm2L : m2.layers = m.layers ++
      [(o1.id,
        { source := o1.sourceId, color := o2.color, width := o2.width,
          dasharray :=
            if o2.dasharray.isSome then o2.dasharray else o1.dasharray,
          opacity := o2.opacity, blur := o2.blur })] := by
    show (ensureLineLayer (ensureGeoJSONSource m1 id d2) o2).layers = _
    have hgl : getLayer (ensureGeoJSONSource m1 id d2) o2.id = some
        { source := o1.sourceId, color := o1.color, width := o1.width,
          dasharray := o1.dasharray, opacity := o1.opacity,
          blur := o1.blur } := by
      rw [getLayer_eq_find?, ensureGeoJSONSource_layers, hid,
        ← getLayer_eq_find?]
      exact hgL1
    unfold ensureLineLayer
    simp only [hgl, Option.isSome_some, if_true]
    rw [ensureGeoJSONSource_layers, hm1L, List.map_append,
      map_upd_of_absent _ m.layers (fun p => decide (p.1 = o2.id)) ?_ hfindL2]
    · simp [hid]
    · intro a ha
      have hne : ¬ (a.1 = o2.id) := by simpa using ha
      simp [hne]
  refine ⟨?_, ?_, ?_, ?_, ?_⟩
  · unfold sourceCount
    rw [hm2s, List.filter_append, filter_of_find?_none _ _ hfindS]
    simp
  · rw [getSource_eq_find?, hm2s, find?_append_of_none _ _ _ hfindS]
    simp [List.find?]
  · unfold layerCount
    rw [hm2L, List.filter_append, filter_of_find?_none _ _ hfindL]
    simp
  · rw [getLayer_eq_find?, hm2L, find?_append_of_none _ _ _ hfindL]
    simp [List.find?]
  · unfold sourceIds
    rw [hm2s, hm1s]
    simp

theorem upsert_twice_witness :
    getSource (emptyMapboxMap Nat) "route" = none ∧
    getLayer (emptyMapboxMap Nat) "route-line" = none ∧
    ("route-line" : String) = "route-line" ∧
    sourceCount
      (ensureLineLayer (ensureGeoJSONSource
        (ensureLineLayer (ensureGeoJSONSource (emptyMapboxMap Nat) "route" 1)
          { id := "route-line", sourceId := "route", color := "#34d399" })
        "route" 2)
        { id := "route-line", sourceId := "route", color := "#065f46",
          width := 3 }) "route" = 1 := by
  refine ⟨rfl, rfl, rfl, ?_⟩
  have h := upsert_twice_yields_single_source_and_layer
    (emptyMapboxMap Nat) "route" 1 2
    { id := "route-line", sourceId := "route", color := "#34d399" }
    { id := "route-line", sourceId := "route", color := "#065f46",
      width := 3 } rfl rfl rfl
  exact h.1

/-- C7: for every valid `(start, end)` pair, a route request answered in
mock mode resolves immediately to a response whose `start` and `end`
fields equal the submitted parameters. -/
theorem requestRoute_echoes_params (s e : Coordinate)
    (_hs : validCoordinate s) (_he : validCoordinate e) :
    (mockFetchSafeRoute { start := some s, end_ := some e }).start = s ∧
    (mockFetchSafeRoute { start := some s, end_ := some e }).end_ = e ∧
    fetchSafeRoute true { start := some s, end_ := some e } =
      .resolved (mockFetchSafeRoute { start := some s, end_ := some e }) :=
  ⟨rfl, rfl, rfl⟩

theorem requestRoute_echoes_params_witness :
    (mockFetchSafeRoute
      { start := some { lat := 40.73061, lng := -74.0007 },
        end_ := some { lat := 40.7152, lng := -73.983 } }).start =
      { lat := 40.73061, lng := -74.0007 } :=
  (requestRoute_echoes_params { lat := 40.73061, lng := -74.0007 }
    { lat := 40.7152, lng := -73.983 }
    (by norm_num [validCoordinate]) (by norm_num [validCoordinate])).1

/-- C8: a query whose trimmed form is shorter than 3 characters makes the
geocoder effect clear the suggestion list without scheduling any lookup,
and even `forwardGeocode` itself would resolve to the empty list without
issuing a request. -/
theorem short_query_never_triggers_lookup (q : String)
    (h : (jsTrim q).length < 3) :
    useGeocoderEffect true q = .clearSuggestions ∧
    forwardGeocode (jsTrim q) = .immediateEmpty := by
  constructor
  · simp [useGeocoderEffect, h]
  · simp [forwardGeocode, h]

theorem short_query_witness :
    useGeocoderEffect true "Wa" = .clearSuggestions :=
  (short_query_never_triggers_lookup "Wa" (by decide)).1

/-- C9: the map initialization effect is a silent logged no-op when an
instance already exists or no access token is configured (no instance is
created, no exception escapes), running it twice changes nothing beyond
the first run (at-most-once, idempotent), and rendering without a token
yields the labeled empty state instead of the map container. -/
theorem map_init_idempotent_and_degrades (hasToken : Bool)
    (s : MapDashboardState) :
    (s.mapInstance.isSome →
      mapInitEffect hasToken s = (s, .skippedExisting)) ∧
    (hasToken = false → (mapInitEffect hasToken s).1 = s ∧
      renderMapDashboard false = .tokenMissingEmptyState) ∧
    (mapInitEffect hasToken ((mapInitEffect hasToken s).1)).1 =
      (mapInitEffect hasToken s).1 := by
  refine ⟨?_, ?_, ?_⟩
  · intro h
    simp [mapInitEffect, h]
  · intro h
    subst h
    rcases s with ⟨mi, cr⟩
    cases mi <;> cases cr <;> simp [mapInitEffect, renderMapDashboard]
  · rcases s with ⟨mi, cr⟩
    cases mi <;> cases cr <;> cases hasToken <;>
      simp [mapInitEffect, createBaseMap]

theorem map_init_witness :
    (mapInitEffect false
      { mapInstance := none, containerReady := true }).1 =
      { mapInstance := none, containerReady := true } ∧
    renderMapDashboard false = .tokenMissingEmptyState :=
  (map_init_idempotent_and_degrades false
    { mapInstance := none, containerReady := true }).2.1 rfl
